import Mathlib

/-!
Verification of `pkg/gitgen/mod.go` from the git-gen repository.

The Go package orchestrates: run a `git diff` between two references, pick a
fixed instruction string by task type, construct a model backend by platform
identifier, invoke it, and return the generated content.

The embedding translates the Go source into Lean. External effects (running
the `git` process, the go-git library calls, the model backends defined in
`pkg/models`) are abstracted as oracle functions collected in an environment
record, and every invocation additionally returns the trace of observable
events it performed, so that claims about which effects happen (and in which
order, under which context) become statements about the trace.
-/

/-- Go error values as used by `mod.go`.  `wrapped msg inner` mirrors
`fmt.Errorf("... %w", inner)`; `errUnknownPlatform` is the sentinel
`ErrUnknownPlatform`; `external msg` stands for an error value returned by
the external `git` process, a backend constructor or a backend call;
the remaining constructors mirror the spec's error taxonomy for the
go-git variant (`RepositoryOpenError`, `ReferenceResolutionError`, and
object-lookup failures). -/
inductive GoError where
  | errUnknownPlatform : GoError
  | wrapped (msg : String) (inner : GoError) : GoError
  | external (msg : String) : GoError
  | repositoryOpenError : GoError
  | referenceResolutionError (name : String) : GoError
  | objectNotFound (hash : String) : GoError
  deriving DecidableEq

/-- Go's `errors.Is`: an error matches a target if it equals it, or if an
error it wraps does. -/
def GoError.is : GoError → GoError → Bool
  | .wrapped m inner, t => decide (GoError.wrapped m inner = t) || inner.is t
  | e, t => decide (e = t)

/-- A Go `context.Context` as far as `mod.go` observes one: the code only
ever constructs `context.Background()`; `callerSupplied` stands for a
context handed in by the caller of `Do` (which `Do`'s signature does not
accept). -/
inductive GoContext where
  | background : GoContext
  | callerSupplied : GoContext
  deriving DecidableEq

/-- Observable events of one invocation, in order:
`cliRun args` is `exec.Command(args...).Run()`;
`goGitOpen` is `git.PlainOpenWithOptions` (never emitted by `Do`);
`printLine s` is `fmt.Println(s)`;
`backendConstruct p` is a call of the platform `p` constructor;
`backendExec ctx sys usr` is `runtime.ExecPrompt(ctx, sys, usr)`. -/
inductive Event where
  | cliRun (args : List String) : Event
  | goGitOpen : Event
  | printLine (s : String) : Event
  | backendConstruct (platform : String) : Event
  | backendExec (ctx : GoContext) (system user : String) : Event
  deriving DecidableEq

def Event.isCliRun : Event → Bool
  | .cliRun _ => true
  | _ => false

def Event.isGoGitOpen : Event → Bool
  | .goGitOpen => true
  | _ => false

def Event.isBackendConstruct : Event → Bool
  | .backendConstruct _ => true
  | _ => false

def Event.isBackendExec : Event → Bool
  | .backendExec _ _ _ => true
  | _ => false

/-- Modelled from the spec: the `Config` record used by `mod.go` is defined
elsewhere in the repository (not under the given sources).  Per the spec's
data model it holds the source reference (required), the destination
reference (optional, empty string when omitted), platform identifier,
credential, model identifier, max token count, and request timeout in
seconds.  Field names follow the uses in `mod.go`. -/
structure Config where
  SourceRef : String
  DestinationRef : String
  PlatformApiKey : String
  Platform : String
  Model : String
  PromptMaxTokens : Nat
  PromptRequestTimeoutSeconds : Nat
  deriving DecidableEq

/-- Modelled from the spec: `models.ModelConfig` from `pkg/models` (not under
the given sources); the backend configuration record built by `Do`. -/
structure ModelConfig where
  PlatformApiKey : String
  Platform : String
  Model : String
  PromptMaxTokens : Nat
  PromptRequestTimeoutSeconds : Nat
  deriving DecidableEq

/-- Modelled from the spec: the response of a backend's execute-prompt call,
carrying the generated text content. -/
structure ModelResponse where
  Content : String
  deriving DecidableEq

/-- The captured output of one run of an external command
(`cmd.Stdout` and `cmd.Stderr` buffers in `runDiffOnCli`). -/
structure ExecResult where
  stdout : String
  stderr : String
  deriving DecidableEq

/-- Modelled from the spec: the behaviour of the environment outside
`mod.go` — the external `git` process, and the two backend implementations
of `pkg/models`.  `cli args` is the outcome of running the external command
with the given argument list.  `openAiExec` is the hosted-API backend's
execute-prompt call (its construction `NewOpenAi` never fails, per the
spec's deferred-validation contract).  `ollamaNew` is the local backend
constructor `NewOllamaAi`, which may fail immediately; `ollamaExec` is its
execute-prompt call. -/
structure Env where
  cli : List String → Except GoError ExecResult
  openAiExec : ModelConfig → GoContext → String → String → Except GoError ModelResponse
  ollamaNew : ModelConfig → Except GoError Unit
  ollamaExec : ModelConfig → GoContext → String → String → Except GoError ModelResponse

/-- Go's `PromptType` is an integer type (`type PromptType int`), so any
integer value can be passed. -/
abbrev PromptType := Int

def PromptCommitMessage : PromptType := 0
def PromptCodeReview : PromptType := 1
def PromptTestCase : PromptType := 2

/-- `getPrompt` from `mod.go`: a switch over the three enumeration values
with no default case, so `prompt` keeps its zero value `""` for any other
value. -/
def getPrompt (promptType : PromptType) : String :=
  if promptType = PromptCommitMessage then
    "please generate a git commit message with a simple explanation from the changes stated above which is an output of a git diff command. all response of this message should be wrapped in a markdown format because it will be shared in a text-only terminal interface."
  else if promptType = PromptCodeReview then
    "please perform a efficient and concise code review which points out crucial improvements could be changed on the target code. the target code is stated above which is an output of a git diff command. all response of this message should be wrapped in a markdown format because it will be shared in a text-only terminal interface."
  else if promptType = PromptTestCase then
    "Please generate detailed test cases from the changes stated above, which is an output of a git diff command. The test cases should be comprehensive and cover all the modifications, additions, and deletions in the code. All responses to this message should be wrapped in a markdown format because it will be shared in a text-only terminal interface. Ensure that the test cases include the following details\n- Description,\n- Steps, Detailed steps to execute the test case. \n- Expected Result, The expected outcome of the test case.\n- Actual Result, (This will be filled out during testing.)"
  else
    ""

/-- The argument list `runDiffOnCli` hands to `exec.Command`: the command is
rebuilt with only the source reference when the destination reference is
empty. -/
def cliArgs (config : Config) : List String :=
  if config.DestinationRef = "" then ["git", "diff", config.SourceRef]
  else ["git", "diff", config.SourceRef, config.DestinationRef]

/-- `runDiffOnCli` from `mod.go`: run the external `git diff` command,
propagate its error, and on success return the captured standard output. -/
def runDiffOnCli (env : Env) (config : Config) :
    Except GoError String × List Event :=
  let args := cliArgs config
  match env.cli args with
  | .error e => (.error e, [Event.cliRun args])
  | .ok r => (.ok r.stdout, [Event.cliRun args])

/-- The `models.ModelConfig` literal built inside `Do`. -/
def mkModelConfig (config : Config) : ModelConfig :=
  { PlatformApiKey := config.PlatformApiKey
    Platform := config.Platform
    Model := config.Model
    PromptMaxTokens := config.PromptMaxTokens
    PromptRequestTimeoutSeconds := config.PromptRequestTimeoutSeconds }

/-- `Do` from `mod.go`: obtain the diff via `runDiffOnCli` (on error return
`("", err)` at once); select the instruction via `getPrompt`; print the two
prompts; construct the backend by a switch on the platform identifier
(`"openai"`, `"ollama"`, default: error wrapping `ErrUnknownPlatform`);
invoke `ExecPrompt` under `context.Background()`; on success print
`"Model Response:"` and return the response content with a nil error.
The second component is the event trace of the invocation. -/
def Do (env : Env) (promptType : PromptType) (config : Config) :
    (String × Option GoError) × List Event :=
  match runDiffOnCli env config with
  | (.error e, tr) => (("", some e), tr)
  | (.ok userPrompt, tr0) =>
    let systemPrompt := getPrompt promptType
    let tr1 := tr0 ++ [Event.printLine "System Prompt:", Event.printLine systemPrompt,
      Event.printLine "User Prompt:", Event.printLine userPrompt]
    let modelConfig := mkModelConfig config
    if modelConfig.Platform = "openai" then
      let tr2 := tr1 ++ [Event.backendConstruct "openai"]
      match env.openAiExec modelConfig GoContext.background systemPrompt userPrompt with
      | .error e =>
        (("", some e), tr2 ++ [Event.backendExec GoContext.background systemPrompt userPrompt])
      | .ok response =>
        ((response.Content, none),
          tr2 ++ [Event.backendExec GoContext.background systemPrompt userPrompt,
            Event.printLine "Model Response:"])
    else if modelConfig.Platform = "ollama" then
      match env.ollamaNew modelConfig with
      | .error e => (("", some e), tr1 ++ [Event.backendConstruct "ollama"])
      | .ok _ =>
        let tr2 := tr1 ++ [Event.backendConstruct "ollama"]
        match env.ollamaExec modelConfig GoContext.background systemPrompt userPrompt with
        | .error e =>
          (("", some e), tr2 ++ [Event.backendExec GoContext.background systemPrompt userPrompt])
        | .ok response =>
          ((response.Content, none),
            tr2 ++ [Event.backendExec GoContext.background systemPrompt userPrompt,
              Event.printLine "Model Response:"])
    else
      (("", some (GoError.wrapped ("unknown platform " ++ modelConfig.Platform)
          GoError.errUnknownPlatform)), tr1)

/-- A commit's file tree, as an association list from file path to the
content (blob) stored at that path. -/
abbrev FileTree := List (String × String)

def treePaths (t : FileTree) : List String := t.map Prod.fst

/-- The set of file paths at which two trees differ: a path present in
either tree whose looked-up content differs between the two.  This is the
file-level change set of a tree-to-tree diff. -/
def changedPaths (t1 t2 : FileTree) : List String :=
  ((treePaths t1 ++ treePaths t2).dedup).filter fun p => t1.lookup p != t2.lookup p

/-- Modelled from the spec: the patch text rendered by go-git's
tree-to-tree diff (`destTree.Diff(srcTree)` then `patch.String()`),
modelled by the ordered pair of trees it was computed from and observed
through its set of changed file paths. -/
structure Patch where
  fromTree : FileTree
  toTree : FileTree
  deriving DecidableEq

def Patch.changedFiles (p : Patch) : List String :=
  changedPaths p.fromTree p.toTree

/-- Modelled from the spec: the repository-object access go-git gives to
`runDiffWithGoGit` (the library is outside the given sources).
`validName n` is `plumbing.ReferenceName(n).Validate()`;
`resolve n` resolves a reference name to the hash of the commit it points
to (`repo.Reference(n, true)` followed by `.Hash()`);
`headHash` is the commit hash of the repository's current head;
`commitTree h` is `repo.CommitObject(h)` followed by `.Tree()`. -/
structure GitRepo where
  validName : String → Bool
  resolve : String → Option String
  headHash : Option String
  commitTree : String → Option FileTree

/-- `runDiffWithGoGit` from `mod.go`, over an abstract repository
(`none` means `git.PlainOpenWithOptions` found no repository): validate
and resolve the source reference to its commit tree; then, when a
destination reference is present, validate and resolve it, otherwise take
the repository's current head; fetch the destination commit tree and
return the patch `destTree.Diff(srcTree)`. -/
def runDiffWithGoGit (repo : Option GitRepo) (config : Config) :
    Except GoError Patch :=
  match repo with
  | none => .error GoError.repositoryOpenError
  | some r =>
    if r.validName config.SourceRef = false then
      .error (GoError.referenceResolutionError config.SourceRef)
    else
      match r.resolve config.SourceRef with
      | none => .error (GoError.referenceResolutionError config.SourceRef)
      | some srcHash =>
        match r.commitTree srcHash with
        | none => .error (GoError.objectNotFound srcHash)
        | some srcTree =>
          let destHashE : Except GoError String :=
            if config.DestinationRef ≠ "" then
              if r.validName config.DestinationRef = false then
                .error (GoError.referenceResolutionError config.DestinationRef)
              else
                match r.resolve config.DestinationRef with
                | none => .error (GoError.referenceResolutionError config.DestinationRef)
                | some h => .ok h
            else
              match r.headHash with
              | none => .error (GoError.referenceResolutionError "HEAD")
              | some h => .ok h
          match destHashE with
          | .error e => .error e
          | .ok destHash =>
            match r.commitTree destHash with
            | none => .error (GoError.objectNotFound destHash)
            | some destTree => .ok (Patch.mk destTree srcTree)

/-- Modelled from the spec: the changed-path set of the external
`git diff src dst` command for two given (non-empty) references — the
external tool diffs the trees of the two referenced commits, so its output
names exactly the paths at which those two trees differ.  `none` when
either reference fails to resolve to a commit tree. -/
def cliDiffChangedPaths (r : GitRepo) (srcRef dstRef : String) :
    Option (List String) :=
  match r.resolve srcRef, r.resolve dstRef with
  | some hs, some hd =>
    match r.commitTree hs, r.commitTree hd with
    | some ts, some td => some (changedPaths ts td)
    | _, _ => none
  | _, _ => none

/-- Modelled from the spec: what the external tool compares the source
reference against — a second reference argument when one is given, and by
the tool's own default the working tree when the command gets a single
reference argument. -/
inductive CliDiffTarget where
  | workingTree : CliDiffTarget
  | ref (name : String) : CliDiffTarget
  deriving DecidableEq

/-- Modelled from the spec: the comparison target of a `git diff`
invocation, read off its argument list. -/
def cliDiffTargetOf (args : List String) : Option CliDiffTarget :=
  match args with
  | ["git", "diff", _] => some CliDiffTarget.workingTree
  | ["git", "diff", _, d] => some (CliDiffTarget.ref d)
  | _ => none

/-- A concrete environment whose external `git` call succeeds with a fixed
diff text and whose backends succeed with a fixed response. -/
def okEnv : Env :=
  { cli := fun _ => .ok { stdout := "DIFF", stderr := "" }
    openAiExec := fun _ _ _ _ => .ok { Content := "GENERATED" }
    ollamaNew := fun _ => .ok ()
    ollamaExec := fun _ _ _ _ => .ok { Content := "GENERATED-OLLAMA" } }

/-- A concrete environment whose external `git` call fails. -/
def failEnv : Env :=
  { cli := fun _ => .error (GoError.external "git failed")
    openAiExec := fun _ _ _ _ => .ok { Content := "GENERATED" }
    ollamaNew := fun _ => .ok ()
    ollamaExec := fun _ _ _ _ => .ok { Content := "GENERATED-OLLAMA" } }

/-- A concrete configuration with the `"openai"` platform and no
destination reference. -/
def openaiConfig : Config :=
  { SourceRef := "feature-branch", DestinationRef := "", PlatformApiKey := "key"
    Platform := "openai", Model := "gpt", PromptMaxTokens := 100
    PromptRequestTimeoutSeconds := 30 }

/-- A concrete configuration with an unknown platform identifier. -/
def bogusConfig : Config :=
  { SourceRef := "feature-branch", DestinationRef := "", PlatformApiKey := "key"
    Platform := "bogus", Model := "gpt", PromptMaxTokens := 100
    PromptRequestTimeoutSeconds := 30 }

/-- A concrete configuration with the `"ollama"` platform and no
destination reference. -/
def ollamaConfig : Config :=
  { SourceRef := "feature-branch", DestinationRef := "", PlatformApiKey := "key"
    Platform := "ollama", Model := "llama", PromptMaxTokens := 100
    PromptRequestTimeoutSeconds := 30 }

/-- A concrete environment whose external `git` call succeeds but whose
local-backend construction fails. -/
def ollamaNewFailEnv : Env :=
  { cli := fun _ => .ok { stdout := "DIFF", stderr := "" }
    openAiExec := fun _ _ _ _ => .ok { Content := "GENERATED" }
    ollamaNew := fun _ => .error (GoError.external "ollama unreachable")
    ollamaExec := fun _ _ _ _ => .ok { Content := "GENERATED-OLLAMA" } }

/-- A concrete environment whose external `git` call succeeds but whose
hosted-backend execute-prompt call fails. -/
def openAiExecFailEnv : Env :=
  { cli := fun _ => .ok { stdout := "DIFF", stderr := "" }
    openAiExec := fun _ _ _ _ => .error (GoError.external "auth failed")
    ollamaNew := fun _ => .ok ()
    ollamaExec := fun _ _ _ _ => .ok { Content := "GENERATED-OLLAMA" } }

/-- A concrete configuration naming both a source and a destination
reference. -/
def mainDestConfig : Config :=
  { SourceRef := "refs/heads/feature", DestinationRef := "refs/heads/main"
    PlatformApiKey := "key", Platform := "openai", Model := "gpt"
    PromptMaxTokens := 100, PromptRequestTimeoutSeconds := 30 }

/-- A concrete configuration whose source is the feature branch and whose
destination reference is empty. -/
def headOnlyConfig : Config :=
  { SourceRef := "refs/heads/feature", DestinationRef := ""
    PlatformApiKey := "key", Platform := "openai", Model := "gpt"
    PromptMaxTokens := 100, PromptRequestTimeoutSeconds := 30 }

/-- A concrete repository with two commits: head `h1` and a feature commit
`h2`, differing at paths `b.txt` (modified) and `c.txt` (added in `h2`). -/
def demoRepo : GitRepo :=
  { validName := fun _ => true
    resolve := fun n =>
      if n = "refs/heads/feature" then some "h2"
      else if n = "refs/heads/main" then some "h1"
      else none
    headHash := some "h1"
    commitTree := fun h =>
      if h = "h1" then some [("a.txt", "1"), ("b.txt", "2")]
      else if h = "h2" then some [("a.txt", "1"), ("b.txt", "3"), ("c.txt", "4")]
      else none }


/-- The trace prefix common to every invocation of `Do` whose diff step
succeeded with output `out`: the external command run and the four
diagnostic print statements. -/
def baseTrace (pt : PromptType) (config : Config) (out : String) : List Event :=
  [Event.cliRun (cliArgs config), Event.printLine "System Prompt:",
   Event.printLine (getPrompt pt), Event.printLine "User Prompt:",
   Event.printLine out]

lemma mkModelConfig_Platform (config : Config) :
    (mkModelConfig config).Platform = config.Platform := rfl

lemma Do_cli_error (env : Env) (pt : PromptType) (config : Config) (e : GoError)
    (h : env.cli (cliArgs config) = .error e) :
    Do env pt config = (("", some e), [Event.cliRun (cliArgs config)]) := by
  simp [Do, runDiffOnCli, h]

lemma Do_openai_err (env : Env) (pt : PromptType) (config : Config)
    (r : ExecResult) (e : GoError)
    (hcli : env.cli (cliArgs config) = .ok r)
    (hp : config.Platform = "openai")
    (hexec : env.openAiExec (mkModelConfig config) GoContext.background
      (getPrompt pt) r.stdout = .error e) :
    Do env pt config = (("", some e),
      baseTrace pt config r.stdout ++ [Event.backendConstruct "openai",
        Event.backendExec GoContext.background (getPrompt pt) r.stdout]) := by
  simp [Do, runDiffOnCli, baseTrace, mkModelConfig_Platform, hcli, hp, hexec]

lemma Do_openai_ok (env : Env) (pt : PromptType) (config : Config)
    (r : ExecResult) (resp : ModelResponse)
    (hcli : env.cli (cliArgs config) = .ok r)
    (hp : config.Platform = "openai")
    (hexec : env.openAiExec (mkModelConfig config) GoContext.background
      (getPrompt pt) r.stdout = .ok resp) :
    Do env pt config = ((resp.Content, none),
      baseTrace pt config r.stdout ++ [Event.backendConstruct "openai",
        Event.backendExec GoContext.background (getPrompt pt) r.stdout,
        Event.printLine "Model Response:"]) := by
  simp [Do, runDiffOnCli, baseTrace, mkModelConfig_Platform, hcli, hp, hexec]

lemma Do_ollama_new_err (env : Env) (pt : PromptType) (config : Config)
    (r : ExecResult) (e : GoError)
    (hcli : env.cli (cliArgs config) = .ok r)
    (hp : config.Platform = "ollama")
    (hnew : env.ollamaNew (mkModelConfig config) = .error e) :
    Do env pt config = (("", some e),
      baseTrace pt config r.stdout ++ [Event.backendConstruct "ollama"]) := by
  simp [Do, runDiffOnCli, baseTrace, mkModelConfig_Platform, hcli, hp, hnew]

lemma Do_ollama_err (env : Env) (pt : PromptType) (config : Config)
    (r : ExecResult) (e : GoError)
    (hcli : env.cli (cliArgs config) = .ok r)
    (hp : config.Platform = "ollama")
    (hnew : env.ollamaNew (mkModelConfig config) = .ok ())
    (hexec : env.ollamaExec (mkModelConfig config) GoContext.background
      (getPrompt pt) r.stdout = .error e) :
    Do env pt config = (("", some e),
      baseTrace pt config r.stdout ++ [Event.backendConstruct "ollama",
        Event.backendExec GoContext.background (getPrompt pt) r.stdout]) := by
  simp [Do, runDiffOnCli, baseTrace, mkModelConfig_Platform, hcli, hp, hnew, hexec]

lemma Do_ollama_ok (env : Env) (pt : PromptType) (config : Config)
    (r : ExecResult) (resp : ModelResponse)
    (hcli : env.cli (cliArgs config) = .ok r)
    (hp : config.Platform = "ollama")
    (hnew : env.ollamaNew (mkModelConfig config) = .ok ())
    (hexec : env.ollamaExec (mkModelConfig config) GoContext.background
      (getPrompt pt) r.stdout = .ok resp) :
    Do env pt config = ((resp.Content, none),
      baseTrace pt config r.stdout ++ [Event.backendConstruct "ollama",
        Event.backendExec GoContext.background (getPrompt pt) r.stdout,
        Event.printLine "Model Response:"]) := by
  simp [Do, runDiffOnCli, baseTrace, mkModelConfig_Platform, hcli, hp, hnew, hexec]

lemma Do_unknown_platform (env : Env) (pt : PromptType) (config : Config)
    (r : ExecResult)
    (hcli : env.cli (cliArgs config) = .ok r)
    (hp1 : config.Platform ≠ "openai")
    (hp2 : config.Platform ≠ "ollama") :
    Do env pt config = (("", some (GoError.wrapped
      ("unknown platform " ++ config.Platform) GoError.errUnknownPlatform)),
      baseTrace pt config r.stdout) := by
  simp [Do, runDiffOnCli, baseTrace, mkModelConfig_Platform, hcli, hp1, hp2]

/-- Every invocation of `Do` takes exactly one of seven paths: diff failure,
openai backend failure or success, ollama construction failure, ollama call
failure or success, or the unknown-platform rejection. -/
lemma Do_cases (env : Env) (pt : PromptType) (config : Config) :
    (∃ e, env.cli (cliArgs config) = .error e ∧
      Do env pt config = (("", some e), [Event.cliRun (cliArgs config)])) ∨
    (∃ r, env.cli (cliArgs config) = .ok r ∧
      ((config.Platform = "openai" ∧
        ((∃ e, Do env pt config = (("", some e),
            baseTrace pt config r.stdout ++ [Event.backendConstruct "openai",
              Event.backendExec GoContext.background (getPrompt pt) r.stdout])) ∨
         (∃ resp : ModelResponse, Do env pt config = ((resp.Content, none),
            baseTrace pt config r.stdout ++ [Event.backendConstruct "openai",
              Event.backendExec GoContext.background (getPrompt pt) r.stdout,
              Event.printLine "Model Response:"])))) ∨
       (config.Platform = "ollama" ∧
        ((∃ e, Do env pt config = (("", some e),
            baseTrace pt config r.stdout ++ [Event.backendConstruct "ollama"])) ∨
         (∃ e, Do env pt config = (("", some e),
            baseTrace pt config r.stdout ++ [Event.backendConstruct "ollama",
              Event.backendExec GoContext.background (getPrompt pt) r.stdout])) ∨
         (∃ resp : ModelResponse, Do env pt config = ((resp.Content, none),
            baseTrace pt config r.stdout ++ [Event.backendConstruct "ollama",
              Event.backendExec GoContext.background (getPrompt pt) r.stdout,
              Event.printLine "Model Response:"])))) ∨
       (config.Platform ≠ "openai" ∧ config.Platform ≠ "ollama" ∧
        Do env pt config = (("", some (GoError.wrapped
          ("unknown platform " ++ config.Platform) GoError.errUnknownPlatform)),
          baseTrace pt config r.stdout)))) := by
  rcases h : env.cli (cliArgs config) with e | r
  · exact Or.inl ⟨e, rfl, Do_cli_error env pt config e h⟩
  · refine Or.inr ⟨r, rfl, ?_⟩
    by_cases hp : config.Platform = "openai"
    · refine Or.inl ⟨hp, ?_⟩
      rcases hexec : env.openAiExec (mkModelConfig config) GoContext.background
          (getPrompt pt) r.stdout with e | resp
      · exact Or.inl ⟨e, Do_openai_err env pt config r e h hp hexec⟩
      · exact Or.inr ⟨resp, Do_openai_ok env pt config r resp h hp hexec⟩
    · by_cases hq : config.Platform = "ollama"
      · refine Or.inr (Or.inl ⟨hq, ?_⟩)
        rcases hnew : env.ollamaNew (mkModelConfig config) with e | u
        · exact Or.inl ⟨e, Do_ollama_new_err env pt config r e h hq hnew⟩
        · cases u
          rcases hexec : env.ollamaExec (mkModelConfig config) GoContext.background
              (getPrompt pt) r.stdout with e | resp
          · exact Or.inr (Or.inl ⟨e, Do_ollama_err env pt config r e h hq hnew hexec⟩)
          · exact Or.inr (Or.inr ⟨resp, Do_ollama_ok env pt config r resp h hq hnew hexec⟩)
      · exact Or.inr (Or.inr ⟨hp, hq, Do_unknown_platform env pt config r h hp hq⟩)

lemma mem_changedPaths {t1 t2 : FileTree} {p : String} :
    p ∈ changedPaths t1 t2 ↔
      (p ∈ treePaths t1 ∨ p ∈ treePaths t2) ∧ t1.lookup p ≠ t2.lookup p := by
  simp [changedPaths, List.mem_filter, List.mem_dedup, List.mem_append, bne_iff_ne]

lemma mem_changedPaths_comm {t1 t2 : FileTree} {p : String} :
    p ∈ changedPaths t1 t2 ↔ p ∈ changedPaths t2 t1 := by
  simp only [mem_changedPaths]
  constructor
  · rintro ⟨hm, hne⟩; exact ⟨hm.symm, fun h => hne h.symm⟩
  · rintro ⟨hm, hne⟩; exact ⟨hm.symm, fun h => hne h.symm⟩

/-- C1: for a fixed source reference and a fixed (non-empty) destination
reference on which both diff variants succeed, the external-tool variant's
output and the direct-repository-read variant's patch contain the same set
of changed file paths.  The external tool diffs the source tree against the
destination tree, while `runDiffWithGoGit` computes `destTree.Diff(srcTree)`
— the opposite orientation — but the two changed-path sets coincide. -/
theorem diff_variants_changed_paths_agree (r : GitRepo) (config : Config)
    (srcHash dstHash : String) (srcTree dstTree : FileTree)
    (hne : config.DestinationRef ≠ "")
    (hsv : r.validName config.SourceRef = true)
    (hdv : r.validName config.DestinationRef = true)
    (hsr : r.resolve config.SourceRef = some srcHash)
    (hdr : r.resolve config.DestinationRef = some dstHash)
    (hst : r.commitTree srcHash = some srcTree)
    (hdt : r.commitTree dstHash = some dstTree) :
    cliDiffChangedPaths r config.SourceRef config.DestinationRef =
      some (changedPaths srcTree dstTree) ∧
    runDiffWithGoGit (some r) config = .ok (Patch.mk dstTree srcTree) ∧
    ∀ p, p ∈ changedPaths srcTree dstTree ↔
      p ∈ (Patch.mk dstTree srcTree).changedFiles := by
  refine ⟨?_, ?_, ?_⟩
  · simp [cliDiffChangedPaths, hsr, hdr, hst, hdt]
  · simp [runDiffWithGoGit, hne, hsv, hdv, hsr, hdr, hst, hdt]
  · intro p
    simpa [Patch.changedFiles] using
      (@mem_changedPaths_comm srcTree dstTree p)

/-- C1 witness: the two variants agree on the changed-path set for the
concrete two-commit repository `demoRepo`. -/
theorem diff_variants_changed_paths_agree_witness :
    (mainDestConfig.DestinationRef ≠ "" ∧
     demoRepo.validName mainDestConfig.SourceRef = true ∧
     demoRepo.validName mainDestConfig.DestinationRef = true ∧
     demoRepo.resolve mainDestConfig.SourceRef = some "h2" ∧
     demoRepo.resolve mainDestConfig.DestinationRef = some "h1" ∧
     demoRepo.commitTree "h2" = some [("a.txt", "1"), ("b.txt", "3"), ("c.txt", "4")] ∧
     demoRepo.commitTree "h1" = some [("a.txt", "1"), ("b.txt", "2")]) ∧
    cliDiffChangedPaths demoRepo mainDestConfig.SourceRef mainDestConfig.DestinationRef =
      some (changedPaths [("a.txt", "1"), ("b.txt", "3"), ("c.txt", "4")]
        [("a.txt", "1"), ("b.txt", "2")]) ∧
    ("b.txt" ∈ changedPaths [("a.txt", "1"), ("b.txt", "3"), ("c.txt", "4")]
        [("a.txt", "1"), ("b.txt", "2")] ↔
     "b.txt" ∈ (Patch.mk [("a.txt", "1"), ("b.txt", "2")]
        [("a.txt", "1"), ("b.txt", "3"), ("c.txt", "4")]).changedFiles) :=
  ⟨⟨by decide, rfl, rfl, rfl, rfl, rfl, rfl⟩,
   (diff_variants_changed_paths_agree demoRepo mainDestConfig "h2" "h1"
      [("a.txt", "1"), ("b.txt", "3"), ("c.txt", "4")] [("a.txt", "1"), ("b.txt", "2")]
      (by decide) rfl rfl rfl rfl rfl rfl).1,
   (diff_variants_changed_paths_agree demoRepo mainDestConfig "h2" "h1"
      [("a.txt", "1"), ("b.txt", "3"), ("c.txt", "4")] [("a.txt", "1"), ("b.txt", "2")]
      (by decide) rfl rfl rfl rfl rfl rfl).2.2 "b.txt"⟩

/-- C4: with an empty destination reference, `runDiffWithGoGit` compares
the source reference's commit tree against the tree of the repository's
current head commit: with head at commit X and the source reference at
commit Y, the resulting patch is the tree-to-tree diff of X's tree and Y's
tree, so its changed-file set is exactly the file-level change set between
X and Y. -/
theorem empty_destination_diffs_head_vs_source (r : GitRepo) (config : Config)
    (headH srcHash : String) (headTree srcTree : FileTree)
    (hde : config.DestinationRef = "")
    (hsv : r.validName config.SourceRef = true)
    (hsr : r.resolve config.SourceRef = some srcHash)
    (hst : r.commitTree srcHash = some srcTree)
    (hh : r.headHash = some headH)
    (hht : r.commitTree headH = some headTree) :
    runDiffWithGoGit (some r) config = .ok (Patch.mk headTree srcTree) ∧
    (Patch.mk headTree srcTree).changedFiles = changedPaths headTree srcTree := by
  refine ⟨?_, rfl⟩
  simp [runDiffWithGoGit, hde, hsv, hsr, hst, hh, hht]

/-- C4 witness: in `demoRepo` (head at `h1`, source `refs/heads/feature` at
`h2`, with empty destination) the diff is taken between the head tree and
the source tree, and its changed files are `b.txt` and `c.txt`. -/
theorem empty_destination_diffs_head_vs_source_witness :
    (headOnlyConfig.DestinationRef = "" ∧
     demoRepo.headHash = some "h1" ∧
     demoRepo.resolve headOnlyConfig.SourceRef = some "h2") ∧
    runDiffWithGoGit (some demoRepo) headOnlyConfig =
      .ok (Patch.mk [("a.txt", "1"), ("b.txt", "2")]
        [("a.txt", "1"), ("b.txt", "3"), ("c.txt", "4")]) ∧
    (Patch.mk [("a.txt", "1"), ("b.txt", "2")]
      [("a.txt", "1"), ("b.txt", "3"), ("c.txt", "4")]).changedFiles =
      ["b.txt", "c.txt"] :=
  ⟨⟨rfl, rfl, rfl⟩,
   (empty_destination_diffs_head_vs_source demoRepo headOnlyConfig "h1" "h2"
      [("a.txt", "1"), ("b.txt", "2")] [("a.txt", "1"), ("b.txt", "3"), ("c.txt", "4")]
      rfl rfl rfl rfl rfl rfl).1,
   by decide⟩

/-- C2 counterexample: at the task-type value 3, which lies outside the
enumeration, `getPrompt` returns the empty instruction string — there is no
`InvalidTaskType` failure (the function has no error result at all), so the
claim that it fails fast rather than returning an empty string is false. -/
theorem getPrompt_unknown_no_failure_cex :
    (3 ≠ PromptCommitMessage ∧ 3 ≠ PromptCodeReview ∧ 3 ≠ PromptTestCase) ∧
    getPrompt 3 = "" := by
  exact ⟨⟨by decide, by decide, by decide⟩, rfl⟩

/-- C2 (amended): for every task-type value outside the closed enumeration,
`getPrompt` silently returns the empty instruction string; its switch has
no default case and its signature has no error channel. -/
theorem getPrompt_unknown_returns_empty (t : PromptType)
    (h1 : t ≠ PromptCommitMessage) (h2 : t ≠ PromptCodeReview)
    (h3 : t ≠ PromptTestCase) : getPrompt t = "" := by
  simp [getPrompt, h1, h2, h3]

/-- C2 witness: the amended claim at the concrete out-of-range value 7. -/
theorem getPrompt_unknown_returns_empty_witness :
    (7 ≠ PromptCommitMessage ∧ 7 ≠ PromptCodeReview ∧ 7 ≠ PromptTestCase) ∧
    getPrompt 7 = "" :=
  ⟨⟨by decide, by decide, by decide⟩,
   getPrompt_unknown_returns_empty 7 (by decide) (by decide) (by decide)⟩

/-- C7: for the three task types commit-message, code-review and test-case,
`getPrompt` returns a non-empty instruction string, and the three strings
are pairwise distinct.  (In the embedding `getPrompt` is a pure total
function into `String`; it has no side effects and no error cases on these
values.) -/
theorem getPrompt_three_types_nonempty_distinct :
    getPrompt PromptCommitMessage ≠ "" ∧
    getPrompt PromptCodeReview ≠ "" ∧
    getPrompt PromptTestCase ≠ "" ∧
    getPrompt PromptCommitMessage ≠ getPrompt PromptCodeReview ∧
    getPrompt PromptCommitMessage ≠ getPrompt PromptTestCase ∧
    getPrompt PromptCodeReview ≠ getPrompt PromptTestCase := by
  refine ⟨?_, ?_, ?_, ?_, ?_, ?_⟩ <;> decide

/-- C9: `runDiffOnCli` invokes the version-control diff command with both
references when the destination reference is non-empty and with only the
source reference when it is empty, and on success returns the command's
captured standard output (propagating the command's error otherwise). -/
theorem runDiffOnCli_args_and_stdout (env : Env) (config : Config) :
    (config.DestinationRef = "" →
      cliArgs config = ["git", "diff", config.SourceRef]) ∧
    (config.DestinationRef ≠ "" →
      cliArgs config = ["git", "diff", config.SourceRef, config.DestinationRef]) ∧
    (∀ r, env.cli (cliArgs config) = .ok r →
      runDiffOnCli env config = (.ok r.stdout, [Event.cliRun (cliArgs config)])) ∧
    (∀ e, env.cli (cliArgs config) = .error e →
      runDiffOnCli env config = (.error e, [Event.cliRun (cliArgs config)])) := by
  refine ⟨?_, ?_, ?_, ?_⟩
  · intro h; simp [cliArgs, h]
  · intro h; simp [cliArgs, h]
  · intro r h; simp [runDiffOnCli, h]
  · intro e h; simp [runDiffOnCli, h]

/-- C9 witness: with an empty destination the command is
`git diff feature-branch` and its standard output is returned. -/
theorem runDiffOnCli_args_and_stdout_witness :
    openaiConfig.DestinationRef = "" ∧
    cliArgs openaiConfig = ["git", "diff", openaiConfig.SourceRef] ∧
    runDiffOnCli okEnv openaiConfig =
      (.ok "DIFF", [Event.cliRun (cliArgs openaiConfig)]) :=
  ⟨rfl, (runDiffOnCli_args_and_stdout okEnv openaiConfig).1 rfl,
   (runDiffOnCli_args_and_stdout okEnv openaiConfig).2.2.1
     { stdout := "DIFF", stderr := "" } rfl⟩

/-- C8: whenever the diff succeeds, the backend is constructed (either
platform), and the backend call returns a content string, `Do` returns
exactly that content string unchanged with a nil error. -/
theorem do_returns_backend_content_unchanged (env : Env) (pt : PromptType)
    (config : Config) (r : ExecResult)
    (hcli : env.cli (cliArgs config) = .ok r) :
    (config.Platform = "openai" → ∀ resp : ModelResponse,
      env.openAiExec (mkModelConfig config) GoContext.background
        (getPrompt pt) r.stdout = .ok resp →
      (Do env pt config).1 = (resp.Content, none)) ∧
    (config.Platform = "ollama" →
      env.ollamaNew (mkModelConfig config) = .ok () → ∀ resp : ModelResponse,
      env.ollamaExec (mkModelConfig config) GoContext.background
        (getPrompt pt) r.stdout = .ok resp →
      (Do env pt config).1 = (resp.Content, none)) := by
  constructor
  · intro hp resp hexec
    rw [Do_openai_ok env pt config r resp hcli hp hexec]
  · intro hp hnew resp hexec
    rw [Do_ollama_ok env pt config r resp hcli hp hnew hexec]

/-- C8 witness: the end-to-end scenario of the spec — source
`feature-branch`, empty destination, platform `openai`, diff text `DIFF`,
backend content `GENERATED` — returns `GENERATED` unchanged. -/
theorem do_returns_backend_content_unchanged_witness :
    okEnv.cli (cliArgs openaiConfig) = .ok { stdout := "DIFF", stderr := "" } ∧
    openaiConfig.Platform = "openai" ∧
    (Do okEnv PromptCommitMessage openaiConfig).1 = ("GENERATED", none) :=
  ⟨rfl, rfl,
   (do_returns_backend_content_unchanged okEnv PromptCommitMessage openaiConfig
      { stdout := "DIFF", stderr := "" } rfl).1 rfl
     { Content := "GENERATED" } rfl⟩

/-- C5: every failing step of `Do` surfaces exactly that step's error
immediately, with an empty content string, and executes none of the
subsequent steps: a diff failure leaves the trace at the single external
command run (so no backend is ever constructed or invoked and nothing is
printed); a backend-construction failure leaves it at the diagnostic
prints plus the one construction attempt (no backend call, no further
print); a backend-execution failure leaves it at the one failing call (no
response print).  Every error outcome carries empty content, and no step
is ever retried (at most one command run, one backend construction and
one backend call per invocation). -/
theorem do_error_propagation (env : Env) (pt : PromptType) (config : Config) :
    (∀ e, env.cli (cliArgs config) = .error e →
      Do env pt config = (("", some e), [Event.cliRun (cliArgs config)])) ∧
    (∀ r e, env.cli (cliArgs config) = .ok r → config.Platform = "ollama" →
      env.ollamaNew (mkModelConfig config) = .error e →
      Do env pt config = (("", some e),
        baseTrace pt config r.stdout ++ [Event.backendConstruct "ollama"])) ∧
    (∀ r e, env.cli (cliArgs config) = .ok r → config.Platform = "openai" →
      env.openAiExec (mkModelConfig config) GoContext.background
        (getPrompt pt) r.stdout = .error e →
      Do env pt config = (("", some e),
        baseTrace pt config r.stdout ++ [Event.backendConstruct "openai",
          Event.backendExec GoContext.background (getPrompt pt) r.stdout])) ∧
    (∀ r e, env.cli (cliArgs config) = .ok r → config.Platform = "ollama" →
      env.ollamaNew (mkModelConfig config) = .ok () →
      env.ollamaExec (mkModelConfig config) GoContext.background
        (getPrompt pt) r.stdout = .error e →
      Do env pt config = (("", some e),
        baseTrace pt config r.stdout ++ [Event.backendConstruct "ollama",
          Event.backendExec GoContext.background (getPrompt pt) r.stdout])) ∧
    (∀ e, (Do env pt config).1.2 = some e → (Do env pt config).1.1 = "") ∧
    (Do env pt config).2.countP Event.isCliRun = 1 ∧
    (Do env pt config).2.countP Event.isBackendConstruct ≤ 1 ∧
    (Do env pt config).2.countP Event.isBackendExec ≤ 1 := by
  refine ⟨fun e he => Do_cli_error env pt config e he,
    fun r e hcli hp hnew => Do_ollama_new_err env pt config r e hcli hp hnew,
    fun r e hcli hp hexec => Do_openai_err env pt config r e hcli hp hexec,
    fun r e hcli hp hnew hexec => Do_ollama_err env pt config r e hcli hp hnew hexec,
    ?_⟩
  rcases Do_cases env pt config with ⟨e, hcli, hDo⟩ | ⟨r, hok, hrest⟩
  · rw [hDo]
    exact ⟨by simp, by simp [Event.isCliRun], by simp [Event.isBackendConstruct],
      by simp [Event.isBackendExec]⟩
  · rcases hrest with ⟨hp, ⟨e, hDo⟩ | ⟨resp, hDo⟩⟩ |
        ⟨hp, ⟨e, hDo⟩ | ⟨e, hDo⟩ | ⟨resp, hDo⟩⟩ | ⟨hp, hq, hDo⟩ <;>
      rw [hDo] <;>
      exact ⟨by simp, by simp [baseTrace, Event.isCliRun],
        by simp [baseTrace, Event.isBackendConstruct],
        by simp [baseTrace, Event.isBackendExec]⟩

/-- C5 witness: one concrete run per failing step — a failing external
diff, a failing local-backend construction, and a failing hosted-backend
call — each surfacing exactly that step's error with empty content and a
trace that stops at the failing step. -/
theorem do_error_propagation_witness :
    (failEnv.cli (cliArgs openaiConfig) = .error (GoError.external "git failed") ∧
     Do failEnv PromptCommitMessage openaiConfig =
       (("", some (GoError.external "git failed")),
        [Event.cliRun (cliArgs openaiConfig)])) ∧
    (ollamaConfig.Platform = "ollama" ∧
     Do ollamaNewFailEnv PromptCommitMessage ollamaConfig =
       (("", some (GoError.external "ollama unreachable")),
        baseTrace PromptCommitMessage ollamaConfig "DIFF" ++
          [Event.backendConstruct "ollama"])) ∧
    (openaiConfig.Platform = "openai" ∧
     Do openAiExecFailEnv PromptCommitMessage openaiConfig =
       (("", some (GoError.external "auth failed")),
        baseTrace PromptCommitMessage openaiConfig "DIFF" ++
          [Event.backendConstruct "openai",
           Event.backendExec GoContext.background
             (getPrompt PromptCommitMessage) "DIFF"])) :=
  ⟨⟨rfl, (do_error_propagation failEnv PromptCommitMessage openaiConfig).1
      (GoError.external "git failed") rfl⟩,
   ⟨rfl, (do_error_propagation ollamaNewFailEnv PromptCommitMessage ollamaConfig).2.1
      { stdout := "DIFF", stderr := "" } (GoError.external "ollama unreachable")
      rfl rfl rfl⟩,
   ⟨rfl, (do_error_propagation openAiExecFailEnv PromptCommitMessage openaiConfig).2.2.1
      { stdout := "DIFF", stderr := "" } (GoError.external "auth failed")
      rfl rfl rfl⟩⟩

/-- C3 counterexample: with the unknown platform `"bogus"` but a failing
diff step, `Do` returns the diff error, which does not wrap
`ErrUnknownPlatform` — so an unknown platform identifier alone does not
guarantee an `UnknownPlatformError` result. -/
theorem unknown_platform_after_diff_failure_cex :
    (bogusConfig.Platform ≠ "openai" ∧ bogusConfig.Platform ≠ "ollama") ∧
    (Do failEnv PromptCommitMessage bogusConfig).1.2 =
      some (GoError.external "git failed") ∧
    GoError.is (GoError.external "git failed") GoError.errUnknownPlatform = false :=
  ⟨⟨by decide, by decide⟩, rfl, by decide⟩

/-- C3 (amended): with a platform identifier outside
`{"openai", "ollama"}`, no backend is ever constructed and no backend call
is attempted; and provided the diff step succeeds, `Do` returns empty
content with an error wrapping `ErrUnknownPlatform` (a failing diff step
returns the diff error instead). -/
theorem unknown_platform_no_backend (env : Env) (pt : PromptType)
    (config : Config) (hp1 : config.Platform ≠ "openai")
    (hp2 : config.Platform ≠ "ollama") :
    ((Do env pt config).2.countP Event.isBackendConstruct = 0 ∧
     (Do env pt config).2.countP Event.isBackendExec = 0) ∧
    (∀ r, env.cli (cliArgs config) = .ok r →
      Do env pt config = (("", some (GoError.wrapped
        ("unknown platform " ++ config.Platform) GoError.errUnknownPlatform)),
        baseTrace pt config r.stdout) ∧
      GoError.is (GoError.wrapped ("unknown platform " ++ config.Platform)
        GoError.errUnknownPlatform) GoError.errUnknownPlatform = true) := by
  constructor
  · rcases h : env.cli (cliArgs config) with e | r
    · rw [Do_cli_error env pt config e h]
      exact ⟨by simp [Event.isBackendConstruct], by simp [Event.isBackendExec]⟩
    · rw [Do_unknown_platform env pt config r h hp1 hp2]
      exact ⟨by simp [baseTrace, Event.isBackendConstruct],
        by simp [baseTrace, Event.isBackendExec]⟩
  · intro r hr
    refine ⟨Do_unknown_platform env pt config r hr hp1 hp2, ?_⟩
    simp [GoError.is]

/-- C3 witness: the amended claim at the concrete platform `"bogus"` with a
succeeding diff step. -/
theorem unknown_platform_no_backend_witness :
    (bogusConfig.Platform ≠ "openai" ∧ bogusConfig.Platform ≠ "ollama") ∧
    okEnv.cli (cliArgs bogusConfig) = .ok { stdout := "DIFF", stderr := "" } ∧
    Do okEnv PromptCommitMessage bogusConfig =
      (("", some (GoError.wrapped ("unknown platform " ++ bogusConfig.Platform)
        GoError.errUnknownPlatform)),
       baseTrace PromptCommitMessage bogusConfig "DIFF") :=
  ⟨⟨by decide, by decide⟩, rfl,
   ((unknown_platform_no_backend okEnv PromptCommitMessage bogusConfig
      (by decide) (by decide)).2 { stdout := "DIFF", stderr := "" } rfl).1⟩

set_option maxRecDepth 8192 in
/-- C6 counterexample: in a successful invocation, the backend's
execute-prompt call runs under `context.Background()` — a context derived
from nothing supplied by the caller (`Do` accepts no context parameter) —
so the call is not bounded or cancellable by the caller through a context. -/
theorem execPrompt_background_context_cex :
    Event.backendExec GoContext.background (getPrompt PromptCommitMessage) "DIFF"
      ∈ (Do okEnv PromptCommitMessage openaiConfig).2 ∧
    GoContext.background ≠ GoContext.callerSupplied :=
  ⟨by decide, by decide⟩

/-- C6 (amended): every execute-prompt call made by `Do` operates under
`context.Background()`; no caller-derived context is ever used. -/
theorem execPrompt_context_is_background (env : Env) (pt : PromptType)
    (config : Config) (c : GoContext) (sys usr : String)
    (h : Event.backendExec c sys usr ∈ (Do env pt config).2) :
    c = GoContext.background := by
  rcases Do_cases env pt config with ⟨e, -, hDo⟩ |
      ⟨r, -, ⟨-, ⟨e, hDo⟩ | ⟨resp, hDo⟩⟩ |
        ⟨-, ⟨e, hDo⟩ | ⟨e, hDo⟩ | ⟨resp, hDo⟩⟩ | ⟨-, -, hDo⟩⟩ <;>
    rw [hDo] at h <;> simp [baseTrace] at h <;> tauto

set_option maxRecDepth 8192 in
/-- C6 witness: the amended claim at a concrete successful invocation. -/
theorem execPrompt_context_is_background_witness :
    Event.backendExec GoContext.background (getPrompt PromptCommitMessage) "DIFF"
      ∈ (Do okEnv PromptCommitMessage openaiConfig).2 ∧
    GoContext.background = GoContext.background :=
  ⟨by decide,
   execPrompt_context_is_background okEnv PromptCommitMessage openaiConfig
     GoContext.background (getPrompt PromptCommitMessage) "DIFF" (by decide)⟩

/-- C10: `Do` obtains the diff exclusively through the external-tool
variant: its trace never opens a repository through the library, and holds
exactly one external-command run, whose arguments are those of
`runDiffOnCli`; with an empty destination reference that command carries a
single reference argument, whose comparison target is the external tool's
default — the working tree, not the head commit. -/
theorem do_uses_cli_variant_only (env : Env) (pt : PromptType) (config : Config) :
    Event.goGitOpen ∉ (Do env pt config).2 ∧
    Event.cliRun (cliArgs config) ∈ (Do env pt config).2 ∧
    (Do env pt config).2.countP Event.isCliRun = 1 ∧
    (config.DestinationRef = "" →
      cliDiffTargetOf (cliArgs config) = some CliDiffTarget.workingTree) := by
  have hd : config.DestinationRef = "" →
      cliDiffTargetOf (cliArgs config) = some CliDiffTarget.workingTree := by
    intro h
    have harg : cliArgs config = ["git", "diff", config.SourceRef] := by
      simp [cliArgs, h]
    rw [harg]
    rfl
  rcases Do_cases env pt config with ⟨e, -, hDo⟩ |
      ⟨r, -, ⟨-, ⟨e, hDo⟩ | ⟨resp, hDo⟩⟩ |
        ⟨-, ⟨e, hDo⟩ | ⟨e, hDo⟩ | ⟨resp, hDo⟩⟩ | ⟨-, -, hDo⟩⟩ <;>
    rw [hDo] <;>
    exact ⟨by simp [baseTrace], by simp [baseTrace],
      by simp [baseTrace, Event.isCliRun], hd⟩

/-- C10 witness: with an empty destination reference the single-argument
command form is used and no repository is opened through the library. -/
theorem do_uses_cli_variant_only_witness :
    openaiConfig.DestinationRef = "" ∧
    Event.goGitOpen ∉ (Do okEnv PromptCommitMessage openaiConfig).2 ∧
    cliDiffTargetOf (cliArgs openaiConfig) = some CliDiffTarget.workingTree :=
  ⟨rfl, (do_uses_cli_variant_only okEnv PromptCommitMessage openaiConfig).1,
   (do_uses_cli_variant_only okEnv PromptCommitMessage openaiConfig).2.2.2 rfl⟩
